import Mathlib

/-!
Shallow embedding of the SIL dataflow diagnostics pass
(lib/SIL/Passes/DataflowDiagnostics.cpp) and verification of its
specification.

The pass walks every instruction of every basic block of every function of a
SIL module and emits three kinds of diagnostics: missing_return,
non_exhaustive_switch and return_from_noreturn.  The C++ functions
diagnoseMissingReturn, diagnoseNonExhaustiveSwitch, diagnoseUnreachable,
diagnoseReturn and emitSILDataflowDiagnostics are translated one to one below;
ambient diagnostic emission (Context.Diags.diagnose) is modelled by returning
the list of emitted diagnostics.
-/

namespace DataflowDiagnostics

/-- A type as seen by the pass: the only fact consulted is Type::isVoid, and
the non-void types are kept distinguishable so that the diagnostic parameter
can be compared. -/
inductive Ty where
  | void : Ty
  | named : Nat → Ty
deriving DecidableEq, Repr

def Ty.isVoid : Ty → Bool
  | .void => true
  | .named _ => false

/-- The AnyFunctionType obtained from FuncExpr::getType()->castTo; the pass
only reads isNoReturn from it. -/
structure AnyFunctionType where
  noReturn : Bool
deriving DecidableEq, Repr

def AnyFunctionType.isNoReturn (T : AnyFunctionType) : Bool :=
  T.noReturn

/-- A FuncExpr AST node: the pass reads getResultType and getType from it.
castTo of a FuncExpr type to AnyFunctionType always succeeds, so getType
yields the AnyFunctionType directly. -/
structure FuncExpr where
  resultType : Ty
  fnType : AnyFunctionType
deriving DecidableEq, Repr

def FuncExpr.getResultType (FE : FuncExpr) : Ty :=
  FE.resultType

def FuncExpr.getType (FE : FuncExpr) : AnyFunctionType :=
  FE.fnType

/-- A SILLocation: either null (synthetic, inserted by SIL passes such as
DCE), or a pointer to an AST node.  The pass probes the node with
is and getAs for FuncExpr and SwitchStmt; every other node kind
is only ever treated opaquely, so it is collapsed into one constructor.
Each non-null location carries the value of getEndSourceLoc. -/
inductive SILLocation where
  | null : SILLocation
  | funcExpr (FE : FuncExpr) (endLoc : Nat)
  | switchStmt (endLoc : Nat)
  | other (endLoc : Nat)
deriving DecidableEq, Repr

def SILLocation.isNull : SILLocation → Bool
  | .null => true
  | _ => false

def SILLocation.isFuncExpr : SILLocation → Bool
  | .funcExpr _ _ => true
  | _ => false

def SILLocation.isSwitchStmt : SILLocation → Bool
  | .switchStmt _ => true
  | _ => false

def SILLocation.getAsFuncExpr : SILLocation → Option FuncExpr
  | .funcExpr FE _ => some FE
  | _ => none

def SILLocation.getEndSourceLoc : SILLocation → Nat
  | .null => 0
  | .funcExpr _ e => e
  | .switchStmt e => e
  | .other e => e

/-- A SIL instruction, restricted to the variants the pass distinguishes:
UnreachableInst, ReturnInst (whose operand the pass never reads) and an
opaque catch-all for every other instruction kind. -/
inductive Instruction where
  | unreachable (loc : SILLocation)
  | ret (loc : SILLocation) (operand : Nat)
  | otherInst (k : Nat)
deriving DecidableEq, Repr

def Instruction.getLoc : Instruction → SILLocation
  | .unreachable L => L
  | .ret L _ => L
  | .otherInst _ => .null

structure SILBasicBlock where
  instructions : List Instruction
deriving DecidableEq, Repr

structure SILFunction where
  location : SILLocation
  blocks : List SILBasicBlock
deriving DecidableEq, Repr

structure SILModule where
  functions : List SILFunction
deriving DecidableEq, Repr

/-- A diagnostic record: kind, anchor source location, parameters. -/
inductive Diagnostic where
  | missingReturn (anchor : Nat) (resTy : Ty)
  | nonExhaustiveSwitch (anchor : Nat)
  | returnFromNoReturn (anchor : Nat)
deriving DecidableEq, Repr

/-- Translation of diagnoseMissingReturn.  The C++ receives the
UnreachableInst and recovers its parent function via
getParent()->getParent(); here the function and the instruction location are
passed explicitly.  FExpr->getType()->castTo never returns null for a
FuncExpr, so the inner if always enters its body. -/
def diagnoseMissingReturn (F : SILFunction) (uiLoc : SILLocation) :
    List Diagnostic :=
  match F.location.getAsFuncExpr with
  | some FExpr =>
      let ResTy := FExpr.getResultType
      if ResTy.isVoid then []
      else if (FExpr.getType).isNoReturn then []
      else [Diagnostic.missingReturn uiLoc.getEndSourceLoc ResTy]
  | none => []

/-- Translation of diagnoseNonExhaustiveSwitch. -/
def diagnoseNonExhaustiveSwitch (uiLoc : SILLocation) : List Diagnostic :=
  [Diagnostic.nonExhaustiveSwitch uiLoc.getEndSourceLoc]

/-- Translation of diagnoseUnreachable: dyn_cast to UnreachableInst, null
location suppression, then the FuncExpr and SwitchStmt probes in source
order. -/
def diagnoseUnreachable (F : SILFunction) (I : Instruction) :
    List Diagnostic :=
  match I with
  | Instruction.unreachable L =>
      if L.isNull then []
      else if L.isFuncExpr then diagnoseMissingReturn F L
      else if L.isSwitchStmt then diagnoseNonExhaustiveSwitch L
      else []
  | _ => []

/-- Translation of diagnoseReturn: dyn_cast to ReturnInst, the enclosing
function location probed with getAs, the no-return check on its
function type, and the if (L) non-null guard on the return location. -/
def diagnoseReturn (F : SILFunction) (I : Instruction) : List Diagnostic :=
  match I with
  | Instruction.ret L _ =>
      match F.location.getAsFuncExpr with
      | some FExpr =>
          if (FExpr.getType).isNoReturn then
            if L.isNull then []
            else [Diagnostic.returnFromNoReturn L.getEndSourceLoc]
          else []
      | none => []
  | _ => []

/-- The body of the innermost loop of emitSILDataflowDiagnostics: each
instruction is handed to diagnoseUnreachable and then diagnoseReturn. -/
def processInstruction (F : SILFunction) (I : Instruction) :
    List Diagnostic :=
  diagnoseUnreachable F I ++ diagnoseReturn F I

def emitBlock (F : SILFunction) (BB : SILBasicBlock) : List Diagnostic :=
  BB.instructions.flatMap (processInstruction F)

def emitFunction (F : SILFunction) : List Diagnostic :=
  F.blocks.flatMap (emitBlock F)

/-- Translation of emitSILDataflowDiagnostics: the triple loop over
functions, blocks and instructions, concatenating all emitted
diagnostics in traversal order. -/
def emitSILDataflowDiagnostics (M : SILModule) : List Diagnostic :=
  M.functions.flatMap emitFunction

/-- The pass reads the enclosing function's no-return flag through the
FuncExpr obtained from the function's own location: a function counts as
declared no-return exactly when that lookup succeeds and the function
type carries the no-return bit. -/
def functionDeclaredNoReturn (F : SILFunction) : Bool :=
  match F.location.getAsFuncExpr with
  | some FExpr => (FExpr.getType).isNoReturn
  | none => false

/-- A traversal reordering of a basic block: the same instructions visited
in a different order. -/
@[reducible] def BlockReordered (BB BBr : SILBasicBlock) : Prop :=
  BB.instructions.Perm BBr.instructions

/-- A traversal reordering of a function: the same location, and the same
blocks up to reordering each block's instructions and permuting the
blocks. -/
def FuncReordered (F Fr : SILFunction) : Prop :=
  F.location = Fr.location ∧
  ∃ bs, List.Forall₂ BlockReordered F.blocks bs ∧ bs.Perm Fr.blocks

/-- A traversal reordering of a module: the same functions up to reordering
each function's contents and permuting the functions. -/
def ModuleReordered (M Mr : SILModule) : Prop :=
  ∃ fs, List.Forall₂ FuncReordered M.functions fs ∧ fs.Perm Mr.functions

def wBlockA : SILBasicBlock :=
  SILBasicBlock.mk [Instruction.unreachable (SILLocation.switchStmt 5),
    Instruction.otherInst 0]

def wBlockB : SILBasicBlock :=
  SILBasicBlock.mk [Instruction.otherInst 0,
    Instruction.unreachable (SILLocation.switchStmt 5)]

def wFunA : SILFunction := SILFunction.mk SILLocation.null [wBlockA]

def wFunB : SILFunction := SILFunction.mk SILLocation.null [wBlockB]

def wFunC : SILFunction :=
  SILFunction.mk
    (SILLocation.funcExpr (FuncExpr.mk (Ty.named 1) (AnyFunctionType.mk false)) 3)
    [SILBasicBlock.mk [Instruction.unreachable
      (SILLocation.funcExpr
        (FuncExpr.mk (Ty.named 1) (AnyFunctionType.mk false)) 9)]]

def wModA : SILModule := SILModule.mk [wFunA, wFunC]

def wModB : SILModule := SILModule.mk [wFunC, wFunB]

def exampleFuncExpr : FuncExpr :=
  FuncExpr.mk (Ty.named 1) (AnyFunctionType.mk false)

def exampleModule : SILModule :=
  SILModule.mk [SILFunction.mk (SILLocation.funcExpr exampleFuncExpr 3)
    [SILBasicBlock.mk [Instruction.unreachable
      (SILLocation.funcExpr exampleFuncExpr 7)]]]

/-! Theorems settling the specification claims. -/

/-- The diagnostic decision for one instruction depends on the enclosing
function only through that function's location. -/
theorem processInstruction_congr (F Fr : SILFunction)
    (h : F.location = Fr.location) :
    processInstruction F = processInstruction Fr := by
  funext I
  cases I <;> simp [processInstruction, diagnoseUnreachable, diagnoseReturn,
    diagnoseMissingReturn, h]

/-- Flat-mapping a permutation-respecting function over pointwise related
lists yields permuted outputs. -/
theorem flatMap_perm_of_forall2 {α β : Type} {r : α → α → Prop}
    {f : α → List β} (hf : ∀ a b, r a b → (f a).Perm (f b))
    {l lr : List α} (h : List.Forall₂ r l lr) :
    (l.flatMap f).Perm (lr.flatMap f) := by
  induction h with
  | nil => simp
  | cons h1 _ ih => simpa using List.Perm.append (hf _ _ h1) ih

theorem emitBlock_perm (F : SILFunction) (BB BBr : SILBasicBlock)
    (h : BlockReordered BB BBr) :
    (emitBlock F BB).Perm (emitBlock F BBr) :=
  List.Perm.flatMap_right _ h

theorem emitFunction_perm (F Fr : SILFunction) (h : FuncReordered F Fr) :
    (emitFunction F).Perm (emitFunction Fr) := by
  obtain ⟨hloc, bs, hb, hp⟩ := h
  have h1 : (F.blocks.flatMap (emitBlock F)).Perm (bs.flatMap (emitBlock F)) :=
    flatMap_perm_of_forall2 (fun a b hab => emitBlock_perm F a b hab) hb
  have h2 : (bs.flatMap (emitBlock F)).Perm
      (Fr.blocks.flatMap (emitBlock F)) :=
    List.Perm.flatMap_right _ hp
  have h3 : Fr.blocks.flatMap (emitBlock F) =
      Fr.blocks.flatMap (emitBlock Fr) := by
    unfold emitBlock
    rw [processInstruction_congr F Fr hloc]
  show (F.blocks.flatMap (emitBlock F)).Perm (Fr.blocks.flatMap (emitBlock Fr))
  rw [← h3]
  exact h1.trans h2

theorem emit_perm_of_reordered (M Mr : SILModule) (h : ModuleReordered M Mr) :
    (emitSILDataflowDiagnostics M).Perm (emitSILDataflowDiagnostics Mr) := by
  obtain ⟨fs, hf, hp⟩ := h
  exact (flatMap_perm_of_forall2
      (fun a b hab => emitFunction_perm a b hab) hf).trans
    (List.Perm.flatMap_right _ hp)

/-- C7: the multiset of diagnostics is a deterministic function of the module
alone: a run that traverses the functions, blocks or instructions in any
other order produces an equal diagnostic multiset. -/
theorem c7_order_independent (M Mr : SILModule) (h : ModuleReordered M Mr) :
    (emitSILDataflowDiagnostics M : Multiset Diagnostic) =
      (emitSILDataflowDiagnostics Mr : Multiset Diagnostic) :=
  Multiset.coe_eq_coe.mpr (emit_perm_of_reordered M Mr h)

theorem c7_order_independent_witness :
    ModuleReordered wModA wModB ∧
      ((emitSILDataflowDiagnostics wModA : Multiset Diagnostic) =
        (emitSILDataflowDiagnostics wModB : Multiset Diagnostic)) :=
  have hFR : FuncReordered wFunA wFunB :=
    ⟨rfl, [wBlockB], List.Forall₂.cons (by decide) List.Forall₂.nil, by decide⟩
  have hFC : FuncReordered wFunC wFunC :=
    ⟨rfl, wFunC.blocks, List.Forall₂.cons (by decide) List.Forall₂.nil,
      by decide⟩
  have h : ModuleReordered wModA wModB :=
    ⟨[wFunB, wFunC],
      List.Forall₂.cons hFR (List.Forall₂.cons hFC List.Forall₂.nil),
      by decide⟩
  ⟨h, c7_order_independent wModA wModB h⟩

/-- A MissingReturn diagnostic can only arise from processing an Unreachable
instruction whose location is non-null, inside a function whose FuncExpr
lookup succeeds, and its type parameter is never void. -/
theorem missingReturn_mem_processInstruction (F : SILFunction)
    (I : Instruction) (a : Nat) (t : Ty)
    (h : Diagnostic.missingReturn a t ∈ processInstruction F I) :
    t.isVoid = false ∧ ∃ L, I = Instruction.unreachable L ∧
      L.isNull = false ∧ (F.location.getAsFuncExpr).isSome = true := by
  rcases hFE : F.location.getAsFuncExpr with _ | FE <;>
    rcases I with L | ⟨L, op⟩ | k <;> try cases L
  all_goals
    simp_all [processInstruction, diagnoseUnreachable, diagnoseMissingReturn,
      diagnoseReturn, diagnoseNonExhaustiveSwitch, SILLocation.isNull,
      SILLocation.isFuncExpr, SILLocation.isSwitchStmt,
      SILLocation.getEndSourceLoc]

/-- C8: every MissingReturn diagnostic the pass emits carries a non-void
result type, and it stems from an Unreachable instruction of the module
whose location is non-null and whose enclosing function's FuncExpr lookup
succeeded, so at the emission point both the location and the result type
are non-null and the assert there can never fire. -/
theorem c8_missing_return_nonvoid (M : SILModule) (a : Nat) (t : Ty)
    (h : Diagnostic.missingReturn a t ∈ emitSILDataflowDiagnostics M) :
    t.isVoid = false ∧
    ∃ F, F ∈ M.functions ∧ ∃ BB, BB ∈ F.blocks ∧ ∃ L,
      Instruction.unreachable L ∈ BB.instructions ∧
      L.isNull = false ∧ (F.location.getAsFuncExpr).isSome = true := by
  simp only [emitSILDataflowDiagnostics, emitFunction, emitBlock,
    List.mem_flatMap] at h
  obtain ⟨F, hF, BB, hBB, I, hI, hd⟩ := h
  obtain ⟨hv, L, hIL, hLn, hFE⟩ :=
    missingReturn_mem_processInstruction F I a t hd
  exact ⟨hv, F, hF, BB, hBB, L, hIL ▸ hI, hLn, hFE⟩

theorem c8_missing_return_nonvoid_witness :
    Diagnostic.missingReturn 7 (Ty.named 1) ∈
      emitSILDataflowDiagnostics exampleModule ∧
    ((Ty.named 1).isVoid = false ∧
      ∃ F, F ∈ exampleModule.functions ∧ ∃ BB, BB ∈ F.blocks ∧ ∃ L,
        Instruction.unreachable L ∈ BB.instructions ∧
        L.isNull = false ∧ (F.location.getAsFuncExpr).isSome = true) :=
  ⟨by decide, c8_missing_return_nonvoid exampleModule 7 (Ty.named 1)
    (by decide)⟩

/-- C1: for every function whose declared result type (read through the
FuncExpr at the function's own location) is not void and whose function type
is not no-return, processing an Unreachable terminator that carries a
FuncExpr-attributed location emits exactly one MissingReturn diagnostic,
whose parameter is the declared result type. -/
theorem c1_missing_return_exactly_one (F : SILFunction) (FE : FuncExpr)
    (L : SILLocation)
    (hF : F.location.getAsFuncExpr = some FE)
    (hv : FE.getResultType.isVoid = false)
    (hnr : (FE.getType).isNoReturn = false)
    (hL : L.isFuncExpr = true) :
    processInstruction F (Instruction.unreachable L) =
      [Diagnostic.missingReturn L.getEndSourceLoc FE.getResultType] := by
  cases L <;> simp_all [processInstruction, diagnoseUnreachable,
    diagnoseMissingReturn, diagnoseReturn, SILLocation.isNull,
    SILLocation.isFuncExpr, SILLocation.getEndSourceLoc]

theorem c1_missing_return_exactly_one_witness :
    (SILFunction.mk (SILLocation.funcExpr
        (FuncExpr.mk (Ty.named 1) (AnyFunctionType.mk false)) 3)
        []).location.getAsFuncExpr =
      some (FuncExpr.mk (Ty.named 1) (AnyFunctionType.mk false)) ∧
    processInstruction
      (SILFunction.mk (SILLocation.funcExpr
        (FuncExpr.mk (Ty.named 1) (AnyFunctionType.mk false)) 3) [])
      (Instruction.unreachable (SILLocation.funcExpr
        (FuncExpr.mk (Ty.named 1) (AnyFunctionType.mk false)) 7)) =
      [Diagnostic.missingReturn 7 (Ty.named 1)] :=
  ⟨by decide,
   c1_missing_return_exactly_one _
     (FuncExpr.mk (Ty.named 1) (AnyFunctionType.mk false)) _
     (by decide) (by decide) (by decide) (by decide)⟩

/-- C2: for a function whose declared result type is void or whose function
type is no-return, no MissingReturn diagnostic is produced for any
Unreachable terminator in its body, whatever that terminator's location. -/
theorem c2_void_or_noreturn_no_missing_return (F : SILFunction)
    (FE : FuncExpr) (L : SILLocation) (a : Nat) (t : Ty)
    (hF : F.location.getAsFuncExpr = some FE)
    (h : FE.getResultType.isVoid = true ∨ (FE.getType).isNoReturn = true) :
    Diagnostic.missingReturn a t ∉
      processInstruction F (Instruction.unreachable L) := by
  rcases h with h | h <;> cases L <;>
    simp_all [processInstruction, diagnoseUnreachable, diagnoseMissingReturn,
      diagnoseReturn, diagnoseNonExhaustiveSwitch, SILLocation.isNull,
      SILLocation.isFuncExpr, SILLocation.isSwitchStmt]

theorem c2_void_or_noreturn_no_missing_return_witness :
    ((SILFunction.mk (SILLocation.funcExpr
        (FuncExpr.mk Ty.void (AnyFunctionType.mk false)) 3)
        []).location.getAsFuncExpr =
      some (FuncExpr.mk Ty.void (AnyFunctionType.mk false)) ∧
      ((FuncExpr.mk Ty.void
          (AnyFunctionType.mk false)).getResultType.isVoid = true ∨
        ((FuncExpr.mk Ty.void
          (AnyFunctionType.mk false)).getType).isNoReturn = true)) ∧
    Diagnostic.missingReturn 7 (Ty.named 1) ∉
      processInstruction
        (SILFunction.mk (SILLocation.funcExpr
          (FuncExpr.mk Ty.void (AnyFunctionType.mk false)) 3) [])
        (Instruction.unreachable (SILLocation.funcExpr
          (FuncExpr.mk Ty.void (AnyFunctionType.mk false)) 7)) :=
  ⟨⟨by decide, Or.inl (by decide)⟩,
   c2_void_or_noreturn_no_missing_return _
     (FuncExpr.mk Ty.void (AnyFunctionType.mk false)) _ 7 (Ty.named 1)
     (by decide) (Or.inl (by decide))⟩

/-- C3: an Unreachable terminator whose location is attributed to a switch
statement yields exactly one NonExhaustiveSwitch diagnostic, whatever the
enclosing function is. -/
theorem c3_switch_exactly_one (F : SILFunction) (e : Nat) :
    processInstruction F (Instruction.unreachable (SILLocation.switchStmt e)) =
      [Diagnostic.nonExhaustiveSwitch e] := by
  simp [processInstruction, diagnoseUnreachable, diagnoseNonExhaustiveSwitch,
    diagnoseReturn, SILLocation.isNull, SILLocation.isFuncExpr,
    SILLocation.isSwitchStmt, SILLocation.getEndSourceLoc]

/-- C4: a Return instruction produces exactly one ReturnFromNoReturn
diagnostic when the enclosing function is declared no-return and the return's
own location is non-null, and no diagnostic otherwise; in particular a
null-location (synthetic) return is never diagnosed. -/
theorem c4_return_from_noreturn_iff (F : SILFunction) (L : SILLocation)
    (op : Nat) :
    processInstruction F (Instruction.ret L op) =
      if functionDeclaredNoReturn F = true ∧ L.isNull = false then
        [Diagnostic.returnFromNoReturn L.getEndSourceLoc]
      else [] := by
  rcases hF : F.location.getAsFuncExpr with _ | FE <;> cases L <;>
    simp_all [processInstruction, diagnoseUnreachable, diagnoseReturn,
      functionDeclaredNoReturn, SILLocation.isNull]

/-- C5: an Unreachable terminator with a null (synthetic) location produces
no diagnostic of any kind. -/
theorem c5_synthetic_unreachable_silent (F : SILFunction) :
    processInstruction F (Instruction.unreachable SILLocation.null) = [] := by
  simp [processInstruction, diagnoseUnreachable, diagnoseReturn,
    SILLocation.isNull]

/-- C6: an Unreachable terminator whose location is non-null but classifies
as neither FuncExpr nor SwitchStmt produces no diagnostic. -/
theorem c6_unknown_attribution_silent (F : SILFunction) (e : Nat) :
    processInstruction F (Instruction.unreachable (SILLocation.other e)) =
      [] := by
  simp [processInstruction, diagnoseUnreachable, diagnoseReturn,
    SILLocation.isNull, SILLocation.isFuncExpr, SILLocation.isSwitchStmt]

/-- C9: when the enclosing function's own location does not classify as a
FuncExpr, no MissingReturn diagnostic is emitted for any Unreachable
terminator in it, even a FuncExpr-attributed one. -/
theorem c9_non_funcexpr_function_no_missing_return (F : SILFunction)
    (L : SILLocation) (a : Nat) (t : Ty)
    (hF : F.location.getAsFuncExpr = none) :
    Diagnostic.missingReturn a t ∉
      processInstruction F (Instruction.unreachable L) := by
  cases L <;>
    simp_all [processInstruction, diagnoseUnreachable, diagnoseMissingReturn,
      diagnoseReturn, diagnoseNonExhaustiveSwitch, SILLocation.isNull,
      SILLocation.isFuncExpr, SILLocation.isSwitchStmt]

theorem c9_non_funcexpr_function_no_missing_return_witness :
    (SILFunction.mk SILLocation.null []).location.getAsFuncExpr = none ∧
    Diagnostic.missingReturn 7 (Ty.named 1) ∉
      processInstruction (SILFunction.mk SILLocation.null [])
        (Instruction.unreachable (SILLocation.funcExpr
          (FuncExpr.mk (Ty.named 1) (AnyFunctionType.mk false)) 7)) :=
  ⟨by decide,
   c9_non_funcexpr_function_no_missing_return _ _ 7 (Ty.named 1) (by decide)⟩

/-- C10: a ReturnFromNoReturn diagnostic can only arise from a Return
instruction with a non-null location inside a function whose own location
classifies as a FuncExpr whose function type is no-return; a return inside
any other function is never diagnosed. -/
theorem c10_return_from_noreturn_requires_funcexpr (F : SILFunction)
    (I : Instruction) (a : Nat)
    (h : Diagnostic.returnFromNoReturn a ∈ processInstruction F I) :
    (∃ FE, F.location.getAsFuncExpr = some FE ∧
      (FE.getType).isNoReturn = true) ∧
    ∃ L op, I = Instruction.ret L op ∧ L.isNull = false := by
  rcases hF : F.location.getAsFuncExpr with _ | FE <;> cases I <;>
    rename_i L <;> try cases L
  all_goals
    simp_all [processInstruction, diagnoseUnreachable, diagnoseMissingReturn,
      diagnoseReturn, diagnoseNonExhaustiveSwitch, SILLocation.isNull,
      SILLocation.isFuncExpr, SILLocation.isSwitchStmt]

theorem c10_return_from_noreturn_requires_funcexpr_witness :
    Diagnostic.returnFromNoReturn 5 ∈
      processInstruction
        (SILFunction.mk (SILLocation.funcExpr
          (FuncExpr.mk Ty.void (AnyFunctionType.mk true)) 3) [])
        (Instruction.ret (SILLocation.other 5) 0) ∧
    ((∃ FE, (SILFunction.mk (SILLocation.funcExpr
          (FuncExpr.mk Ty.void (AnyFunctionType.mk true)) 3)
          []).location.getAsFuncExpr = some FE ∧
        (FE.getType).isNoReturn = true) ∧
      ∃ L op, Instruction.ret (SILLocation.other 5) 0 =
          Instruction.ret L op ∧ L.isNull = false) :=
  ⟨by decide,
   c10_return_from_noreturn_requires_funcexpr _ _ 5 (by decide)⟩

end DataflowDiagnostics
